import Mathlib

/-!
Verification of the fcm-device-groups client library.

The development shallowly embeds the library's data model and operations:

* `raw.rs`: the `Operation` tagged union and `OperationResponse`, together
  with their serde JSON encoding and decoding (internally tagged with tag
  field `operation`, `rename_all = "lowercase"`, and
  `skip_serializing_if = "Option::is_none"` on the optional key name of
  `Add`/`Remove`).
* `error.rs`: the bad-request shape, the per-operation error enums with
  their `from_error_str` classifiers, and
  `FCMDeviceGroupsRequestError::json_response`.
* `lib.rs`: the client facade: request construction, bearer-token
  attachment, `apply_raw`, `apply_operation` and the four public
  operations, and the constructors `with_url` / `with_client`.

HTTP effects are embedded by explicit parameters: the token provider is a
function from scopes to `Except Unit (Option String)` (mirroring
`GetToken::get_token`), and the network is a function `Request → Response`
supplied by the environment.  A `none` result of an operation models a
panic (`expect` / `unwrap`).
-/

namespace FCMDeviceGroups

/-- A JSON value, the representation used by serde_json on the wire. -/
inductive Json where
  | null : Json
  | str (s : String) : Json
  | num (n : Int) : Json
  | arr (xs : List Json) : Json
  | obj (fields : List (String × Json)) : Json
deriving Repr

/-- Field lookup in a JSON object's field list (first occurrence wins),
as serde's struct deserializers do when visiting a map. -/
def getField (fields : List (String × Json)) (name : String) : Option Json :=
  match fields with
  | [] => none
  | (k, v) :: rest => if k = name then some v else getField rest name

/-- Top-level field lookup in a JSON value; `none` on non-objects. -/
def Json.topField : Json → String → Option Json
  | Json.obj fields, name => getField fields name
  | _, _ => none

/-- Whether a JSON value is an object carrying a top-level key `name`. -/
def Json.hasTopKey : Json → String → Bool
  | Json.obj fields, name => fields.any (fun p => p.1 == name)
  | _, _ => false

/-- Decode a JSON array's elements as strings, as serde does for
`Vec<String>`; any non-string element is a decode error. -/
def asStringList : List Json → Option (List String)
  | [] => some []
  | Json.str s :: rest =>
    match asStringList rest with
    | some l => some (s :: l)
    | none => none
  | _ :: _ => none

/-- `Operation` from `raw.rs`: the tagged union of the three POST bodies,
`#[serde(tag = "operation", rename_all = "lowercase")]`. -/
inductive Operation where
  | Create (notification_key_name : String) (registration_ids : List String) : Operation
  | Add (notification_key_name : Option String) (notification_key : String)
      (registration_ids : List String) : Operation
  | Remove (notification_key_name : Option String) (notification_key : String)
      (registration_ids : List String) : Operation
deriving DecidableEq, Repr

/-- The encoding of the optional `notification_key_name` field of
`Add`/`Remove`: `#[serde(skip_serializing_if = "Option::is_none")]`, so an
absent value contributes no field at all. -/
def optKeyNameField : Option String → List (String × Json)
  | none => []
  | some n => [("notification_key_name", Json.str n)]

/-- Serde serialization of `Operation`: an object with the discriminator
field `operation` holding the lowercase variant name, payload fields
inlined at top level in declaration order. -/
def Operation.toJson : Operation → Json
  | .Create name ids =>
    Json.obj [("operation", Json.str "create"),
              ("notification_key_name", Json.str name),
              ("registration_ids", Json.arr (ids.map Json.str))]
  | .Add nameOpt key ids =>
    Json.obj ([("operation", Json.str "add")] ++ optKeyNameField nameOpt ++
              [("notification_key", Json.str key),
               ("registration_ids", Json.arr (ids.map Json.str))])
  | .Remove nameOpt key ids =>
    Json.obj ([("operation", Json.str "remove")] ++ optKeyNameField nameOpt ++
              [("notification_key", Json.str key),
               ("registration_ids", Json.arr (ids.map Json.str))])

/-- Decode a mandatory string field, as serde does for a `String` field. -/
def decodeStringField (fields : List (String × Json)) (name : String) : Option String :=
  match getField fields name with
  | some (Json.str s) => some s
  | _ => none

/-- Decode the optional `notification_key_name` field, as serde does for
`Option<String>`: absent or `null` is `none`, a string is `some`, anything
else is a decode error. -/
def decodeOptKeyName (fields : List (String × Json)) : Option (Option String) :=
  match getField fields "notification_key_name" with
  | none => some none
  | some Json.null => some none
  | some (Json.str s) => some (some s)
  | some _ => none

/-- Decode the `registration_ids` field, as serde does for `Vec<String>`. -/
def decodeIdsField (fields : List (String × Json)) : Option (List String) :=
  match getField fields "registration_ids" with
  | some (Json.arr xs) => asStringList xs
  | _ => none

/-- Serde deserialization of `Operation`: read the internal tag field
`operation`, then the variant's fields; unknown tags are a decode error. -/
def Operation.fromJson : Json → Option Operation
  | Json.obj fields =>
    match getField fields "operation" with
    | some (Json.str tag) =>
      if tag = "create" then
        match decodeStringField fields "notification_key_name", decodeIdsField fields with
        | some n, some ids => some (.Create n ids)
        | _, _ => none
      else if tag = "add" then
        match decodeOptKeyName fields, decodeStringField fields "notification_key",
              decodeIdsField fields with
        | some nOpt, some key, some ids => some (.Add nOpt key ids)
        | _, _, _ => none
      else if tag = "remove" then
        match decodeOptKeyName fields, decodeStringField fields "notification_key",
              decodeIdsField fields with
        | some nOpt, some key, some ids => some (.Remove nOpt key ids)
        | _, _, _ => none
      else none
    | _ => none
  | _ => none

/-- `OperationResponse` from `raw.rs`: the single-field success body. -/
structure OperationResponse where
  notification_key : String
deriving DecidableEq, Repr

/-- Serde deserialization of `OperationResponse`: an object with a string
field `notification_key`; other fields are ignored. -/
def decodeOperationResponse (j : Json) : Option OperationResponse :=
  match j.topField "notification_key" with
  | some (Json.str s) => some ⟨s⟩
  | _ => none

theorem asStringList_map (ids : List String) :
    asStringList (ids.map Json.str) = some ids := by
  induction ids with
  | nil => rfl
  | cons h t ih => simp [asStringList, ih]

/-- `FCMDeviceGroupsBadRequest` from `error.rs`: the generic 400 body
`{ "error": "<message>" }`. -/
structure FCMDeviceGroupsBadRequest where
  error : String
deriving DecidableEq, Repr

/-- Serde deserialization of `FCMDeviceGroupsBadRequest`: an object with a
string field `error`; other fields are ignored. -/
def decodeBadRequest (j : Json) : Option FCMDeviceGroupsBadRequest :=
  match j.topField "error" with
  | some (Json.str s) => some ⟨s⟩
  | _ => none

/-- The observable shape of a `reqwest::Error` as `json_response` can
produce it: a status error made by `error_for_status_ref` (carrying the
response status), or a decode error made by `Response::json` (carrying no
status). -/
inductive ReqwestError where
  | statusError (status : Nat) : ReqwestError
  | decodeError : ReqwestError
deriving DecidableEq, Repr

/-- `reqwest::Error::status`: only a status error carries a status code. -/
def ReqwestError.status : ReqwestError → Option Nat
  | .statusError s => some s
  | .decodeError => none

/-- `FCMDeviceGroupsRequestError` from `error.rs`, parameterized by the
operation-specific bad-request kind `E`. -/
inductive FCMDeviceGroupsRequestError (E : Type) where
  | HttpError (e : ReqwestError) : FCMDeviceGroupsRequestError E
  | BadRequestError (e : E) : FCMDeviceGroupsRequestError E
deriving DecidableEq, Repr

/-- An HTTP response as `json_response` observes it: status code and body. -/
structure Response where
  status : Nat
  body : Json
deriving Repr

/-- `reqwest::Response::error_for_status_ref` fails exactly on client
(400-499) and server (500-599) error statuses. -/
def errorForStatus (status : Nat) : Bool :=
  (400 ≤ status && status ≤ 499) || (500 ≤ status && status ≤ 599)

/-- `FCMDeviceGroupsRequestError::json_response` from `error.rs`.
`fromErrorStr` is the `E::from_error_str` classifier and `decodeT` the
serde decoder of the success shape `T`.  On a 400, the body is decoded as
the generic bad-request shape and classified; a classification miss keeps
the original status error, while a body decode failure propagates the
decode error through `?` (wrapped in `HttpError`).  Any other 4xx/5xx is a
status error without touching the body; non-error statuses decode the
success body. -/
def json_response {E T : Type} (fromErrorStr : FCMDeviceGroupsBadRequest → Option E)
    (decodeT : Json → Option T) (resp : Response) :
    Except (FCMDeviceGroupsRequestError E) T :=
  if errorForStatus resp.status then
    if resp.status = 400 then
      match decodeBadRequest resp.body with
      | none => .error (.HttpError .decodeError)
      | some string_error =>
        match fromErrorStr string_error with
        | some custom_error => .error (.BadRequestError custom_error)
        | none => .error (.HttpError (.statusError resp.status))
    else
      .error (.HttpError (.statusError resp.status))
  else
    match decodeT resp.body with
    | none => .error (.HttpError .decodeError)
    | some v => .ok v

/-- `ALREADY_EXISTS_MESSAGE` from `error.rs`. -/
def ALREADY_EXISTS_MESSAGE : String := "notification_key already exists"

/-- `NO_REGISTRATION_ID_MESSAGE` from `error.rs`. -/
def NO_REGISTRATION_ID_MESSAGE : String := "no valid registration ids"

/-- `KEY_NAME_AND_KEY_DONT_MATCH` from `error.rs` (the message contains an
apostrophe, written here via its code point). -/
def KEY_NAME_AND_KEY_DONT_MATCH : String :=
  "notification_key_name doesn" ++ (Char.ofNat 39).toString ++
  "t match the group name of the notification_key"

/-- `KEY_NOT_FOUND` from `error.rs`. -/
def KEY_NOT_FOUND : String := "notification_key not found"

/-- `CreateGroupError` from `error.rs`. -/
inductive CreateGroupError where
  | AlreadyExists : CreateGroupError
  | NoValidRegistrationIds : CreateGroupError
deriving DecidableEq, Repr

/-- `CreateGroupError::from_error_str`: exact match on the message. -/
def CreateGroupError.from_error_str (error : FCMDeviceGroupsBadRequest) :
    Option CreateGroupError :=
  if error.error = ALREADY_EXISTS_MESSAGE then some .AlreadyExists
  else if error.error = NO_REGISTRATION_ID_MESSAGE then some .NoValidRegistrationIds
  else none

/-- `ChangeGroupMembersError` from `error.rs`. -/
inductive ChangeGroupMembersError where
  | NoValidRegistrationIds : ChangeGroupMembersError
  | KeyNameAndKeyDontMatch : ChangeGroupMembersError
  | KeyNotFound : ChangeGroupMembersError
deriving DecidableEq, Repr

/-- `ChangeGroupMembersError::from_error_str`: exact match on the message. -/
def ChangeGroupMembersError.from_error_str (error : FCMDeviceGroupsBadRequest) :
    Option ChangeGroupMembersError :=
  if error.error = NO_REGISTRATION_ID_MESSAGE then some .NoValidRegistrationIds
  else if error.error = KEY_NAME_AND_KEY_DONT_MATCH then some .KeyNameAndKeyDontMatch
  else if error.error = KEY_NOT_FOUND then some .KeyNotFound
  else none

/-- `GetKeyError` from `error.rs`. -/
inductive GetKeyError where
  | KeyNotFound : GetKeyError
deriving DecidableEq, Repr

/-- `GetKeyError::from_error_str`: exact match on the message. -/
def GetKeyError.from_error_str (error : FCMDeviceGroupsBadRequest) :
    Option GetKeyError :=
  if error.error = KEY_NOT_FOUND then some .KeyNotFound
  else none

/-- `FCMDeviceGroupsBadRequest`'s own `FCMDeviceGroupError` impl: every
message is accepted unchanged (used by the low-level `apply`). -/
def FCMDeviceGroupsBadRequest.from_error_str (error : FCMDeviceGroupsBadRequest) :
    Option FCMDeviceGroupsBadRequest :=
  some error

/-- `FCMDeviceGroupClientCreationError` from `error.rs`: the only two
constructor failure kinds. -/
inductive FCMDeviceGroupClientCreationError where
  | InvalidHeaderValue : FCMDeviceGroupClientCreationError
  | ClientBuild : FCMDeviceGroupClientCreationError
deriving DecidableEq, Repr

/-- `FCMDeviceGroup` from `lib.rs`: the logical name/key pair the facade
returns. -/
structure FCMDeviceGroup where
  notification_key_name : String
  notification_key : String
deriving DecidableEq, Repr

/-- HTTP method of an outgoing request. -/
inductive Method where
  | get : Method
  | post : Method
deriving DecidableEq, Repr

/-- An outgoing HTTP request as the facade builds it: method, URL, query
string, `Content-Type` header, JSON body, `Authorization` header. -/
structure Request where
  method : Method
  url : String
  query : List (String × String)
  contentType : Option String
  body : Option Json
  authorization : Option String
deriving Repr

/-- `FCM_DEVICE_GROUP_SCOPES` from `lib.rs`. -/
def FCM_DEVICE_GROUP_SCOPES : List String :=
  ["https://www.googleapis.com/auth/firebase.messaging"]

/-- A token provider (`GetToken::get_token`): from scopes to an error, no
token needed, or a bearer token string. -/
def TokenProvider : Type := List String → Except Unit (Option String)

/-- `RequestBuilder::bearer_auth`: set the `Authorization` header to
`Bearer <token>`. -/
def bearer_auth (request : Request) (token : String) : Request :=
  { request with authorization := some ("Bearer " ++ token) }

/-- `FCMDeviceGroupClient::add_token` from `lib.rs`: ask the provider for
a token at the fixed scope; attach it as a bearer header when present,
leave the request untouched when the provider reports none is needed, and
propagate a provider error. -/
def add_token (auth : TokenProvider) (request : Request) : Except Unit Request :=
  match auth FCM_DEVICE_GROUP_SCOPES with
  | .error e => .error e
  | .ok (some token) => .ok (bearer_auth request token)
  | .ok none => .ok request

/-- Modelled from the spec: `RawError` is referenced by `lib.rs`
(`error::RawError::GetTokenError`) but its definition is not under `src/`.
Per section 4.2 of the spec the raw request can fail with a transport
error or because "the token provider failed to yield a token". -/
inductive RawError where
  | HttpError (e : ReqwestError) : RawError
  | GetTokenError : RawError
deriving DecidableEq, Repr

/-- Modelled from the spec: the conversion of `RawError` into the
operation result (the `From` impl used by `?` in `apply_operation` and
`get_key`) is not under `src/`.  Per section 4.2 the request error
categories surfaced to callers are `HttpError`, `BadRequestError(E)` and
`GetTokenError`. -/
inductive OperationError (E : Type) where
  | HttpError (e : ReqwestError) : OperationError E
  | BadRequestError (e : E) : OperationError E
  | GetTokenError : OperationError E
deriving DecidableEq, Repr

/-- Injection of a `json_response` error into the operation error. -/
def OperationError.ofRequestError {E : Type} :
    FCMDeviceGroupsRequestError E → OperationError E
  | .HttpError e => .HttpError e
  | .BadRequestError e => .BadRequestError e

/-- The POST request built by `apply_raw`:
`self.client.post(self.url.clone()).json(&operation)` serializes the
operation as the JSON body and sets `Content-Type: application/json`. -/
def buildApplyRequest (url : String) (operation : Operation) : Request :=
  { method := .post, url := url, query := [],
    contentType := some "application/json",
    body := some operation.toJson, authorization := none }

/-- `FCMDeviceGroupClient::apply_raw` from `lib.rs`: build the POST
request, attach the token, send.  `send` is the environment's network;
sending itself is modelled as total, so the only raw failure here is the
token provider's. -/
def apply_raw (auth : TokenProvider) (send : Request → Response)
    (url : String) (operation : Operation) : Except RawError Response :=
  match add_token auth (buildApplyRequest url operation) with
  | .error _ => .error .GetTokenError
  | .ok request => .ok (send request)

/-- The key-name extraction at the top of
`FCMDeviceGroupClient::apply_operation`: `none` is the
`expect("Applying an operation should always have a key name")` panic on
an absent `Add`/`Remove` key name. -/
def operationKeyName : Operation → Option String
  | .Create notification_key_name _ => some notification_key_name
  | .Add notification_key_name _ _ => notification_key_name
  | .Remove notification_key_name _ _ => notification_key_name

/-- `FCMDeviceGroupClient::apply_operation` from `lib.rs`: extract the key
name (panicking — `none` — if absent), run the raw request, classify the
response, and echo the key name into the returned group. -/
def apply_operation {E : Type} (fromErrorStr : FCMDeviceGroupsBadRequest → Option E)
    (auth : TokenProvider) (send : Request → Response)
    (url : String) (operation : Operation) :
    Option (Except (OperationError E) FCMDeviceGroup) :=
  match operationKeyName operation with
  | none => none
  | some key_name =>
    some (
      match apply_raw auth send url operation with
      | .error .GetTokenError => .error .GetTokenError
      | .error (.HttpError e) => .error (.HttpError e)
      | .ok response =>
        match json_response fromErrorStr decodeOperationResponse response with
        | .error e => .error (OperationError.ofRequestError e)
        | .ok r => .ok ⟨key_name, r.notification_key⟩)

/-- `FCMDeviceGroupClient::create_group` from `lib.rs`. -/
def create_group (auth : TokenProvider) (send : Request → Response) (url : String)
    (notification_key_name : String) (registration_ids : List String) :
    Option (Except (OperationError CreateGroupError) FCMDeviceGroup) :=
  apply_operation CreateGroupError.from_error_str auth send url
    (Operation.Create notification_key_name registration_ids)

/-- `FCMDeviceGroupClient::add_to_group` from `lib.rs`: the operation's
key name is always `some group.notification_key_name`. -/
def add_to_group (auth : TokenProvider) (send : Request → Response) (url : String)
    (group : FCMDeviceGroup) (registration_ids : List String) :
    Option (Except (OperationError ChangeGroupMembersError) FCMDeviceGroup) :=
  apply_operation ChangeGroupMembersError.from_error_str auth send url
    (Operation.Add (some group.notification_key_name) group.notification_key
      registration_ids)

/-- `FCMDeviceGroupClient::remove_from_group` from `lib.rs`. -/
def remove_from_group (auth : TokenProvider) (send : Request → Response) (url : String)
    (group : FCMDeviceGroup) (registration_ids : List String) :
    Option (Except (OperationError ChangeGroupMembersError) FCMDeviceGroup) :=
  apply_operation ChangeGroupMembersError.from_error_str auth send url
    (Operation.Remove (some group.notification_key_name) group.notification_key
      registration_ids)

/-- The GET request built by `get_key`: query
`notification_key_name=<name>` and an explicit
`Content-Type: application/json` header, no body. -/
def buildGetKeyRequest (url name : String) : Request :=
  { method := .get, url := url, query := [("notification_key_name", name)],
    contentType := some "application/json",
    body := none, authorization := none }

/-- `FCMDeviceGroupClient::get_key` from `lib.rs`: GET with a query
parameter, classify the response with `GetKeyError`, echo the requested
name into the returned group. -/
def get_key (auth : TokenProvider) (send : Request → Response)
    (url notification_key_name : String) :
    Except (OperationError GetKeyError) FCMDeviceGroup :=
  match add_token auth (buildGetKeyRequest url notification_key_name) with
  | .error _ => .error .GetTokenError
  | .ok request =>
    match json_response GetKeyError.from_error_str decodeOperationResponse
        (send request) with
    | .error e => .error (OperationError.ofRequestError e)
    | .ok response => .ok ⟨notification_key_name, response.notification_key⟩

/-- `http::HeaderValue::try_from` validity on the characters of the sender
id: horizontal tab or a visible byte (32 or above, not 127). -/
def headerValueValid (s : String) : Bool :=
  s.toList.all (fun c => c.toNat == 9 || (decide (32 ≤ c.toNat) && c.toNat != 127))

/-- `FCMDeviceGroupClient` from `lib.rs`: base URL, default headers baked
into the HTTP client, token provider. -/
structure FCMDeviceGroupClient where
  url : String
  defaultHeaders : List (String × String)
  auth : TokenProvider

/-- `FCMDeviceGroupClient::with_url` from `lib.rs`.  `parsedUrl` is the
outcome of `url.into_url()` and `buildOk` of `HttpClient::builder()...build()`.
The sender-id header is validated first (`?` returns
`InvalidHeaderValue`); then the URL result is `unwrap`ped — a parse
failure panics (`none`) rather than producing an error value; then a
builder failure returns `ClientBuild`. -/
def with_url (parsedUrl : Option String) (sender_id : String)
    (auth : TokenProvider) (buildOk : Bool) :
    Option (Except FCMDeviceGroupClientCreationError FCMDeviceGroupClient) :=
  if headerValueValid sender_id then
    match parsedUrl with
    | none => none
    | some u =>
      if buildOk then
        some (.ok ⟨u, [("project_id", sender_id), ("access_token_auth", "true")], auth⟩)
      else
        some (.error .ClientBuild)
  else
    some (.error .InvalidHeaderValue)

/-- `FCMDeviceGroupClient::with_client` from `lib.rs`: the caller supplies
a pre-built client (its headers); the URL result is `unwrap`ped, so a
parse failure panics (`none`); no error value is ever returned. -/
def with_client (headers : List (String × String)) (parsedUrl : Option String)
    (auth : TokenProvider) : Option FCMDeviceGroupClient :=
  match parsedUrl with
  | none => none
  | some u => some ⟨u, headers, auth⟩

/-- Claim C6: for every value of the `Operation` union (Create, Add, Remove,
with any field contents including a present or absent
`notification_key_name`), serializing it to JSON and then deserializing
the result yields the original value. -/
theorem operation_json_roundtrip (op : Operation) :
    Operation.fromJson (Operation.toJson op) = some op := by
  cases op with
  | Create name ids =>
    simp [Operation.toJson, Operation.fromJson, getField, decodeStringField,
          decodeIdsField, asStringList_map]
  | Add nameOpt key ids =>
    cases nameOpt <;>
      simp [Operation.toJson, Operation.fromJson, optKeyNameField, getField,
            decodeOptKeyName, decodeStringField, decodeIdsField, asStringList_map]
  | Remove nameOpt key ids =>
    cases nameOpt <;>
      simp [Operation.toJson, Operation.fromJson, optKeyNameField, getField,
            decodeOptKeyName, decodeStringField, decodeIdsField, asStringList_map]

/-- Claim C7: for every `Add` or `Remove` operation whose
`notification_key_name` is absent, the JSON encoding contains no key named
`notification_key_name` at all (in particular it is never emitted as
`null`). -/
theorem absent_key_name_omitted (key : String) (ids : List String) :
    (Operation.Add none key ids).toJson.hasTopKey "notification_key_name" = false ∧
    (Operation.Remove none key ids).toJson.hasTopKey "notification_key_name" = false ∧
    (Operation.Add none key ids).toJson.topField "notification_key_name" = none ∧
    (Operation.Remove none key ids).toJson.topField "notification_key_name" = none := by
  refine ⟨?_, ?_, ?_, ?_⟩ <;>
    simp [Operation.toJson, optKeyNameField, Json.hasTopKey, Json.topField, getField]

/-- Claim C8: the JSON encoding of every `Operation` is an object whose
discriminator field `operation` holds the exact lowercase literal
`create`, `add` or `remove` according to the variant, payload fields
inlined at top level; in particular the body serialized for
`create_group("g", ["a","b"])` is
`{"operation":"create","notification_key_name":"g","registration_ids":["a","b"]}`. -/
theorem operation_tag_encoding (url : String) :
    (∀ name ids, (Operation.Create name ids).toJson.topField "operation" =
      some (Json.str "create")) ∧
    (∀ nk key ids, (Operation.Add nk key ids).toJson.topField "operation" =
      some (Json.str "add")) ∧
    (∀ nk key ids, (Operation.Remove nk key ids).toJson.topField "operation" =
      some (Json.str "remove")) ∧
    (buildApplyRequest url (Operation.Create "g" ["a", "b"])).body =
      some (Json.obj [("operation", Json.str "create"),
                      ("notification_key_name", Json.str "g"),
                      ("registration_ids", Json.arr [Json.str "a", Json.str "b"])]) := by
  refine ⟨fun name ids => ?_, fun nk key ids => ?_, fun nk key ids => ?_, rfl⟩ <;>
    simp [Operation.toJson, Json.topField, getField, optKeyNameField]

theorem json_response_400_decoded {E T : Type}
    (fromErrorStr : FCMDeviceGroupsBadRequest → Option E)
    (decodeT : Json → Option T) (resp : Response) (br : FCMDeviceGroupsBadRequest)
    (h400 : resp.status = 400) (hbody : decodeBadRequest resp.body = some br) :
    json_response fromErrorStr decodeT resp =
      match fromErrorStr br with
      | some e => .error (.BadRequestError e)
      | none => .error (.HttpError (.statusError 400)) := by
  simp [json_response, h400, hbody, errorForStatus]

/-- Claim C1: for every operation-specific error type and every HTTP 400
response whose body deserializes as `{"error": m}`, the result of
`json_response` is `BadRequestError(v)` if and only if `m` is byte-for-byte
equal to a recognized message for that operation (create:
`ALREADY_EXISTS_MESSAGE → AlreadyExists`,
`NO_REGISTRATION_ID_MESSAGE → NoValidRegistrationIds`; add/remove:
`NO_REGISTRATION_ID_MESSAGE → NoValidRegistrationIds`,
`KEY_NAME_AND_KEY_DONT_MATCH → KeyNameAndKeyDontMatch`,
`KEY_NOT_FOUND → KeyNotFound`; get_key: `KEY_NOT_FOUND → KeyNotFound`),
and otherwise the result is `HttpError`. -/
theorem bad_request_classification (resp : Response) (m : String)
    (h400 : resp.status = 400)
    (hbody : decodeBadRequest resp.body = some ⟨m⟩) :
    (json_response CreateGroupError.from_error_str decodeOperationResponse resp =
      if m = ALREADY_EXISTS_MESSAGE then
        .error (.BadRequestError CreateGroupError.AlreadyExists)
      else if m = NO_REGISTRATION_ID_MESSAGE then
        .error (.BadRequestError CreateGroupError.NoValidRegistrationIds)
      else .error (.HttpError (.statusError 400))) ∧
    (json_response ChangeGroupMembersError.from_error_str decodeOperationResponse resp =
      if m = NO_REGISTRATION_ID_MESSAGE then
        .error (.BadRequestError ChangeGroupMembersError.NoValidRegistrationIds)
      else if m = KEY_NAME_AND_KEY_DONT_MATCH then
        .error (.BadRequestError ChangeGroupMembersError.KeyNameAndKeyDontMatch)
      else if m = KEY_NOT_FOUND then
        .error (.BadRequestError ChangeGroupMembersError.KeyNotFound)
      else .error (.HttpError (.statusError 400))) ∧
    (json_response GetKeyError.from_error_str decodeOperationResponse resp =
      if m = KEY_NOT_FOUND then
        .error (.BadRequestError GetKeyError.KeyNotFound)
      else .error (.HttpError (.statusError 400))) := by
  refine ⟨?_, ?_, ?_⟩ <;>
    rw [json_response_400_decoded _ _ _ _ h400 hbody] <;>
    simp only [CreateGroupError.from_error_str, ChangeGroupMembersError.from_error_str,
               GetKeyError.from_error_str] <;>
    split_ifs <;> rfl

/-- Witness for C1: a 400 response with body
`{"error":"notification_key not found"}` is classified by the get_key
error set to `BadRequestError(KeyNotFound)`. -/
theorem bad_request_classification_witness :
    json_response GetKeyError.from_error_str decodeOperationResponse
      ⟨400, Json.obj [("error", Json.str "notification_key not found")]⟩ =
      .error (.BadRequestError GetKeyError.KeyNotFound) := by
  have h := (bad_request_classification
    ⟨400, Json.obj [("error", Json.str "notification_key not found")]⟩
    "notification_key not found" rfl rfl).2.2
  rw [h]
  simp [KEY_NOT_FOUND]

/-- Counterexample to C2 as stated: a response with status 300 (non-2xx
and not 400) is not turned into `HttpError`; `error_for_status_ref` only
fails on 4xx/5xx, so the body is parsed as the success shape and the call
succeeds. -/
theorem non2xx_not_http_error_counterexample :
    (¬ (200 ≤ 300 ∧ 300 ≤ 299)) ∧ (300 : Nat) ≠ 400 ∧
    json_response GetKeyError.from_error_str decodeOperationResponse
      ⟨300, Json.obj [("notification_key", Json.str "k")]⟩ = .ok ⟨"k"⟩ :=
  ⟨by decide, by decide, rfl⟩

/-- Claim C2 (amended): for every HTTP response whose status is a client
or server error (400-599) other than 400, `json_response` returns
`HttpError` carrying that status directly, without reading or parsing the
response body, regardless of what the body contains. -/
theorem json_response_error_status_non400 {E T : Type}
    (fromErrorStr : FCMDeviceGroupsBadRequest → Option E)
    (decodeT : Json → Option T) (resp : Response)
    (h1 : 400 ≤ resp.status) (h2 : resp.status ≤ 599) (h3 : resp.status ≠ 400) :
    json_response fromErrorStr decodeT resp =
      .error (.HttpError (.statusError resp.status)) := by
  have hefs : errorForStatus resp.status = true := by
    simp only [errorForStatus, Bool.or_eq_true, Bool.and_eq_true, decide_eq_true_eq]
    omega
  simp [json_response, hefs, h3]

/-- Witness for C2 (amended): a 500 response with an arbitrary body is
`HttpError` with status 500. -/
theorem json_response_error_status_non400_witness :
    json_response GetKeyError.from_error_str decodeOperationResponse ⟨500, Json.null⟩ =
      .error (.HttpError (.statusError 500)) :=
  json_response_error_status_non400 _ _ _ (by decide) (by decide) (by decide)

/-- Counterexample to C5 as stated: a 400 response whose body `"oops"`
fails to deserialize as `{error: string}` yields `HttpError` wrapping the
decode error, whose `status()` is `None`, not the original 400. -/
theorem bad_request_decode_failure_counterexample :
    json_response CreateGroupError.from_error_str decodeOperationResponse
      ⟨400, Json.str "oops"⟩ = .error (.HttpError .decodeError) ∧
    ReqwestError.status ReqwestError.decodeError = none ∧
    ReqwestError.status ReqwestError.decodeError ≠ some 400 :=
  ⟨rfl, rfl, by decide⟩

/-- Claim C5 (amended): for every HTTP 400 response whose body fails to
deserialize as the generic `{error: string}` shape, `json_response`
returns the `HttpError` variant wrapping the propagated deserialization
error, which carries no status at all (rather than the original 400
status error). -/
theorem json_response_400_decode_failure {E T : Type}
    (fromErrorStr : FCMDeviceGroupsBadRequest → Option E)
    (decodeT : Json → Option T) (resp : Response)
    (h400 : resp.status = 400) (hdec : decodeBadRequest resp.body = none) :
    json_response fromErrorStr decodeT resp = .error (.HttpError .decodeError) ∧
    ReqwestError.status ReqwestError.decodeError = none := by
  constructor
  · simp [json_response, h400, hdec, errorForStatus]
  · rfl

/-- Witness for C5 (amended): a concrete 400 response with a non-object
body. -/
theorem json_response_400_decode_failure_witness :
    json_response GetKeyError.from_error_str decodeOperationResponse
      ⟨400, Json.str "bad"⟩ = .error (.HttpError .decodeError) :=
  (json_response_400_decode_failure GetKeyError.from_error_str
    decodeOperationResponse ⟨400, Json.str "bad"⟩ rfl rfl).1

/-- Claim C3: on a successful (HTTP 200) response, each high-level method
returns an `FCMDeviceGroup` whose `notification_key` equals the
`notification_key` field of the decoded response body and whose
`notification_key_name` is reconstructed from the caller's input: the
`notification_key_name` parameter for `create_group` and `get_key`, and
`group.notification_key_name` for `add_to_group` and
`remove_from_group`. -/
theorem success_name_echo
    (auth : TokenProvider) (send : Request → Response) (url : String)
    (t : Option String) (k name : String) (ids : List String) (group : FCMDeviceGroup)
    (hauth : auth FCM_DEVICE_GROUP_SCOPES = .ok t)
    (hsend : ∀ req, send req = ⟨200, Json.obj [("notification_key", Json.str k)]⟩) :
    create_group auth send url name ids = some (.ok ⟨name, k⟩) ∧
    add_to_group auth send url group ids = some (.ok ⟨group.notification_key_name, k⟩) ∧
    remove_from_group auth send url group ids =
      some (.ok ⟨group.notification_key_name, k⟩) ∧
    get_key auth send url name = .ok ⟨name, k⟩ := by
  have hjson : ∀ {E : Type} (fe : FCMDeviceGroupsBadRequest → Option E) (req : Request),
      json_response fe decodeOperationResponse (send req) = .ok ⟨k⟩ := by
    intro E fe req
    rw [hsend req]
    simp [json_response, errorForStatus, decodeOperationResponse, Json.topField, getField]
  cases t with
  | none =>
    refine ⟨?_, ?_, ?_, ?_⟩ <;>
      simp [create_group, add_to_group, remove_from_group, get_key, apply_operation,
            apply_raw, add_token, hauth, operationKeyName, hjson]
  | some tok =>
    refine ⟨?_, ?_, ?_, ?_⟩ <;>
      simp [create_group, add_to_group, remove_from_group, get_key, apply_operation,
            apply_raw, add_token, hauth, operationKeyName, hjson]

/-- Witness for C3: a 200 body `{"notification_key":"K1"}` for
`create_group("g", ["r"])` yields
`FCMDeviceGroup{ notification_key_name: "g", notification_key: "K1" }`. -/
theorem success_name_echo_witness :
    create_group (fun _ => .ok (some "T"))
      (fun _ => ⟨200, Json.obj [("notification_key", Json.str "K1")]⟩) "u" "g" ["r"] =
      some (.ok ⟨"g", "K1"⟩) :=
  (success_name_echo (fun _ => .ok (some "T"))
    (fun _ => ⟨200, Json.obj [("notification_key", Json.str "K1")]⟩) "u"
    (some "T") "K1" "g" ["r"] ⟨"gg", "kk"⟩ rfl (fun _ => rfl)).1

/-- Claim C4: for every operation, the outgoing request carries
`Authorization: Bearer <t>` exactly when the token provider returns
`some t` for the scope list `FCM_DEVICE_GROUP_SCOPES`; when the provider
returns `none` the request goes out unchanged, with no Authorization
header; and when the provider fails, the operation returns `GetTokenError`
and the result is independent of the network (no HTTP request is
issued). -/
theorem auth_header_policy
    (auth : TokenProvider) (send2 : Request → Response)
    (url name : String) (op : Operation) (t : String) :
    ((auth FCM_DEVICE_GROUP_SCOPES = .ok (some t)) →
      (∀ req : Request, add_token auth req = .ok (bearer_auth req t)) ∧
      (∀ req : Request, (bearer_auth req t).authorization = some ("Bearer " ++ t))) ∧
    ((auth FCM_DEVICE_GROUP_SCOPES = .ok none) →
      (∀ req : Request, add_token auth req = .ok req) ∧
      (buildApplyRequest url op).authorization = none ∧
      (buildGetKeyRequest url name).authorization = none) ∧
    ((auth FCM_DEVICE_GROUP_SCOPES = .error ()) →
      apply_raw auth send2 url op = .error RawError.GetTokenError ∧
      get_key auth send2 url name = .error OperationError.GetTokenError) := by
  refine ⟨?_, ?_, ?_⟩
  · intro h
    exact ⟨fun req => by simp [add_token, h], fun req => rfl⟩
  · intro h
    exact ⟨fun req => by simp [add_token, h], rfl, rfl⟩
  · intro h
    exact ⟨by simp [apply_raw, add_token, h], by simp [get_key, add_token, h]⟩

/-- Witness for C4: concrete providers returning a token, no token, and
an error, with concrete requests and network. -/
theorem auth_header_policy_witness :
    (add_token (fun _ => .ok (some "T"))
        (buildApplyRequest "u" (Operation.Create "g" ["r"])) =
      .ok (bearer_auth (buildApplyRequest "u" (Operation.Create "g" ["r"])) "T")) ∧
    (bearer_auth (buildApplyRequest "u" (Operation.Create "g" ["r"])) "T").authorization =
      some ("Bearer " ++ "T") ∧
    (add_token (fun _ => .ok none)
        (buildApplyRequest "u" (Operation.Create "g" ["r"])) =
      .ok (buildApplyRequest "u" (Operation.Create "g" ["r"]))) ∧
    (apply_raw (fun _ => .error ()) (fun _ => ⟨200, Json.null⟩) "u"
        (Operation.Create "g" ["r"]) = .error RawError.GetTokenError) ∧
    (get_key (fun _ => .error ()) (fun _ => ⟨200, Json.null⟩) "u" "n" =
      .error OperationError.GetTokenError) := by
  refine ⟨?_, ?_, ?_, ?_, ?_⟩
  · exact ((auth_header_policy (fun _ => .ok (some "T")) (fun _ => ⟨200, Json.null⟩)
      "u" "n" (Operation.Create "g" ["r"]) "T").1 rfl).1 _
  · exact ((auth_header_policy (fun _ => .ok (some "T")) (fun _ => ⟨200, Json.null⟩)
      "u" "n" (Operation.Create "g" ["r"]) "T").1 rfl).2 _
  · exact ((auth_header_policy (fun _ => .ok none) (fun _ => ⟨200, Json.null⟩)
      "u" "n" (Operation.Create "g" ["r"]) "T").2.1 rfl).1 _
  · exact ((auth_header_policy (fun _ => .error ()) (fun _ => ⟨200, Json.null⟩)
      "u" "n" (Operation.Create "g" ["r"]) "T").2.2 rfl).1
  · exact ((auth_header_policy (fun _ => .error ()) (fun _ => ⟨200, Json.null⟩)
      "u" "n" (Operation.Create "g" ["r"]) "T").2.2 rfl).2

/-- Claim C9: the operations handed to `apply_operation` by `add_to_group`
and `remove_from_group` always carry
`some group.notification_key_name`, so the
`expect("Applying an operation should always have a key name")` branch
(`operationKeyName = none`, i.e. a `none` result) is unreachable through
the public API: no public operation panics there. -/
theorem public_api_no_panic
    (auth : TokenProvider) (send : Request → Response) (url name : String)
    (ids : List String) (group : FCMDeviceGroup) :
    operationKeyName (Operation.Add (some group.notification_key_name)
      group.notification_key ids) = some group.notification_key_name ∧
    operationKeyName (Operation.Remove (some group.notification_key_name)
      group.notification_key ids) = some group.notification_key_name ∧
    (add_to_group auth send url group ids).isSome = true ∧
    (remove_from_group auth send url group ids).isSome = true ∧
    (create_group auth send url name ids).isSome = true := by
  refine ⟨rfl, rfl, ?_, ?_, ?_⟩ <;>
    simp [add_to_group, remove_from_group, create_group, apply_operation, operationKeyName]

/-- Claim C10: an input whose URL conversion fails makes `with_url` and
`with_client` panic (`none`) instead of returning an error, and
`FCMDeviceGroupClientCreationError` covers only invalid header values and
HTTP-client build failures, so an invalid URL is never reported through
the constructors' error result. -/
theorem invalid_url_panics (auth : TokenProvider)
    (headers : List (String × String)) (buildOk : Bool) :
    with_url none "123" auth buildOk = none ∧
    with_client headers none auth = none ∧
    ∀ e : FCMDeviceGroupClientCreationError,
      e = FCMDeviceGroupClientCreationError.InvalidHeaderValue ∨
      e = FCMDeviceGroupClientCreationError.ClientBuild := by
  refine ⟨?_, rfl, ?_⟩
  · have h : headerValueValid "123" = true := by decide
    simp [with_url, h]
  · intro e
    cases e
    · exact Or.inl rfl
    · exact Or.inr rfl

end FCMDeviceGroups
